import Mathlib

/-!
Shallow embedding of the Subscription & Slot Lifecycle Engine of the
`ultra-notifier-site` server (`src/unnamed/part_000`).

Numbers: JavaScript numeric fields (balances, prices, hours, millisecond
timestamps) are modelled as `ℚ`; counters (tiers, warning counts) as `ℕ`;
device ids and license keys as `String`.  `Date.now()` is passed explicitly
as a `now : ℚ` argument; each request handler reads the clock a constant
value during its run (single-threaded run-to-completion).

The plan table and the global minimum-hours setting are read at request
time through `getPlans()` / `getGlobalMinHours()`; they are modelled as
explicit arguments (`plans : ℕ → Option Plan`, `minHours : ℚ`) resolved by
the caller, with `DEFAULT_PLANS` the default table from the source.
-/

namespace UltraNotifier

/- Batteries marks the `Rat` field arithmetic `@[irreducible]`, which
blocks `decide` on concrete rational computations; restore the default
transparency for this development. -/
attribute [local semireducible] Rat.add Rat.mul Rat.inv Rat.sub Rat.ofScientific

/-! ## Data model, operations and concrete instances -/

/-- A device-binding history entry (`hwid_history` array elements). -/
structure HistEntry where
  hwid : String
  timestamp : ℚ
  action : String
deriving DecidableEq, Repr

/-- One record of the `db.users` array, with the fields the lifecycle
engine reads or writes.  Absent JS fields are the listed defaults
(`createUser` at part_000:267 initialises a fresh user exactly so). -/
structure User where
  id : ℕ
  license_key : String
  hwid : Option String := none
  balance : ℚ := 0
  subscription_tier : ℕ := 0
  subscription_expires : ℚ := 0
  paused : Bool := false
  pause_locked : Bool := false
  paused_time_remaining : Option ℚ := none
  paused_at : Option ℚ := none
  unpause_requested : Bool := false
  warnings : ℕ := 0
  last_active : ℚ := 0
  hwid_history : List HistEntry := []
deriving DecidableEq, Repr

/-- A warning audit entry (`db.warnings` array elements). -/
structure WarnEntry where
  user_id : ℕ
  reason : String
  timestamp : ℚ
deriving DecidableEq, Repr

/-- The mutable snapshot `db` (users, ban set, warning log, global flags). -/
structure DB where
  users : List User
  banned_hwids : List String := []
  warnings : List WarnEntry := []
  global_paused : Bool := false
  sales_closed : Bool := false
deriving DecidableEq, Repr

/-- A plan definition (entries of `DEFAULT_PLANS` / `db.plans`). -/
structure Plan where
  name : String
  tier : ℕ
  price : ℚ
  slots : ℕ
  minHours : ℚ := 2
  enabled : Bool := true
  adminOnly : Bool := false
deriving DecidableEq, Repr

/-- The default plan table `DEFAULT_PLANS` (part_000:311).
`maxValue`/`color` are display-only and omitted. -/
def DEFAULT_PLANS : ℕ → Option Plan
  | 1 => some { name := "Bronze", tier := 1, price := 1, slots := 2 }
  | 2 => some { name := "Silver", tier := 2, price := 2, slots := 2 }
  | 3 => some { name := "Gold", tier := 3, price := 7/2, slots := 4 }
  | 4 => some { name := "Diamond", tier := 4, price := 17/4, slots := 2 }
  | 5 => some { name := "Diamond Private", tier := 5, price := 5, slots := 1,
                adminOnly := true }
  | _ => none

/-- The source helper `findUser({id})` (part_000:144): first user with the given id. -/
def findUser (db : DB) (id : ℕ) : Option User :=
  db.users.find? (fun u => u.id == id)

/-- The source helper `findUser({license_key})` (part_000:146). -/
def findUserByKey (db : DB) (key : String) : Option User :=
  db.users.find? (fun u => u.license_key == key)

/-- The source helper `updateUser(id, updates)` (part_000:151): replace the
matching user by `f u`, leave everyone else alone. -/
def updateUser (db : DB) (id : ℕ) (f : User → User) : DB :=
  { db with users := db.users.map (fun u => if u.id = id then f u else u) }

/-- The source helper `isHWIDBanned` (part_000:171): membership in `db.banned_hwids`. -/
def isHWIDBanned (db : DB) (hwid : String) : Bool :=
  db.banned_hwids.contains hwid

/-- The purchase rounding `Math.round(parseFloat(hours) * 10) / 10`
(part_000:706): round to one decimal place; JS `Math.round x = ⌊x + 1/2⌋`. -/
def roundTenth (q : ℚ) : ℚ := (((q * 10 + 1/2).floor : ℤ) : ℚ) / 10

/-- JS `Math.max(0, q)`. -/
def max0 (q : ℚ) : ℚ := if q < 0 then 0 else q

/-- Milliseconds in an hour (`3600 * 1000`). -/
def msPerHour : ℚ := 3600000

inductive SubscribeResult where
  | userNotFound
  | bannedHwid
  | bannedWarnings
  | salesClosed
  | globalPaused
  | invalidHours
  | invalidTier
  | planDisabled
  | planAdminOnly
  | slotsFull (activeUsersOnTier maxSlots : ℕ)
  | insufficientBalance (needed held : ℚ)
  | oldPlanMissing
  | success (newBalance expires convertedHours totalHours : ℚ)
deriving DecidableEq, Repr

/-- Active users on a tier, excluding the requesting user
(part_000:729-733): `subscription_tier == tier && subscription_expires >
now && id !== user.id`. -/
def activeUsersOnTier (db : DB) (tier : ℕ) (uid : ℕ) (now : ℚ) : ℕ :=
  (db.users.filter (fun u =>
    decide (u.subscription_tier = tier ∧ now < u.subscription_expires ∧ u.id ≠ uid))).length

/-- The slot capacity `plan.slots || 2` (part_000:735). -/
def maxSlotsOf (p : Plan) : ℕ := if p.slots = 0 then 2 else p.slots

/-- The tail of `POST /api/subscribe` (part_000:763-788): the new
subscription is the converted time plus the purchased time; the user's
balance, tier and expiry are persisted. -/
def subscribeSuccess (user : User) (uid tier : ℕ)
    (parsedHours cost convertedHours : ℚ) (db : DB) (now : ℚ) :
    SubscribeResult × DB :=
  let totalHours := convertedHours + parsedHours
  let newExpires := now + totalHours * msPerHour
  let newBalance := user.balance - cost
  (.success newBalance newExpires convertedHours totalHours,
   updateUser db uid (fun u =>
     { u with balance := newBalance,
              subscription_tier := tier,
              subscription_expires := newExpires }))

/-- The plan-specific part of `POST /api/subscribe` (part_000:714-788):
enabled/admin-only checks, slot admission, balance check, fair
conversion and the success update.  `parsedHours` is the already-rounded
purchase amount. -/
def subscribeChecked (plans : ℕ → Option Plan) (db : DB) (uid tier : ℕ)
    (parsedHours : ℚ) (user : User) (plan : Plan) (isAdminUser : Bool)
    (now : ℚ) : SubscribeResult × DB :=
  if plan.enabled = false then (.planDisabled, db)
  else if plan.adminOnly ∧ ¬ isAdminUser then (.planAdminOnly, db)
  else if maxSlotsOf plan ≤ activeUsersOnTier db tier uid now then
    (.slotsFull (activeUsersOnTier db tier uid now) (maxSlotsOf plan), db)
  else if user.balance < parsedHours * plan.price then
    (.insufficientBalance (parsedHours * plan.price) user.balance, db)
  else if now < user.subscription_expires ∧ 0 < user.subscription_tier then
    match plans user.subscription_tier with
    | none => (.oldPlanMissing, db)
    | some oldPlan =>
      subscribeSuccess user uid tier parsedHours (parsedHours * plan.price)
        (((user.subscription_expires - now) / msPerHour * oldPlan.price)
          / plan.price) db now
  else
    subscribeSuccess user uid tier parsedHours (parsedHours * plan.price) 0 db now

/-- The guard section of `POST /api/subscribe` (part_000:683-712): ban,
warning, sales-closed, global-pause, hour-range and tier checks, run for
the authenticated user record. -/
def subscribeBody (plans : ℕ → Option Plan) (minHours : ℚ) (db : DB)
    (uid : ℕ) (tier : ℕ) (hours : ℚ) (isAdminUser : Bool) (now : ℚ)
    (user : User) : SubscribeResult × DB :=
  if user.hwid.any (isHWIDBanned db) then (.bannedHwid, db)
  else if 2 ≤ user.warnings then (.bannedWarnings, db)
  else if db.sales_closed then (.salesClosed, db)
  else if db.global_paused then (.globalPaused, db)
  else if roundTenth hours < minHours ∨ 168 < roundTenth hours then
    (.invalidHours, db)
  else match plans tier with
  | none => (.invalidTier, db)
  | some plan =>
    subscribeChecked plans db uid tier (roundTenth hours) user plan isAdminUser now

/-- The endpoint `POST /api/subscribe` (part_000:678-788).  `isAdminUser`
models `isAdmin(req.user)`; `plans`/`minHours` are `getPlans()` /
`getGlobalMinHours()` read at request time.  An unknown old-tier plan
during conversion would throw in JS; that is `oldPlanMissing` here. -/
def subscribe (plans : ℕ → Option Plan) (minHours : ℚ) (db : DB)
    (uid : ℕ) (tier : ℕ) (hours : ℚ) (isAdminUser : Bool) (now : ℚ) :
    SubscribeResult × DB :=
  match findUser db uid with
  | none => (.userNotFound, db)
  | some user => subscribeBody plans minHours db uid tier hours isAdminUser now user

inductive ValidateResult where
  | noKey
  | banned
  | invalidKey
  | expired
  | hwidMismatch
  | valid (tier : ℕ)
deriving DecidableEq, Repr

/-- The per-user checks of `GET /api/validate` (part_000:816-858):
warnings, bound-device ban, expiry, device mismatch; on the valid path an
unbound user presenting a device gets it bound with a history entry (the
`updateUser` fires exactly when a binding is added, since `updates` then
holds more than the one `last_active` key; the display-only
`roblox_username` update is omitted). -/
def validateUser (db : DB) (user : User) (hwid : Option String) (now : ℚ) :
    ValidateResult × DB :=
  if 2 ≤ user.warnings then (.banned, db)
  else if user.hwid.any (isHWIDBanned db) then (.banned, db)
  else if ¬ (now < user.subscription_expires) then (.expired, db)
  else if user.hwid.any (fun d => hwid != some d) then (.hwidMismatch, db)
  else
    match user.hwid, hwid with
    | none, some d =>
      (.valid user.subscription_tier,
       updateUser db user.id (fun u =>
         { u with hwid := some d,
                  hwid_history := u.hwid_history ++
                    [{ hwid := d, timestamp := now, action := "set" }],
                  last_active := now }))
    | _, _ => (.valid user.subscription_tier, db)

/-- The keyed part of `GET /api/validate` (part_000:807-814): presented
device ban check, then key lookup. -/
def validateKeyed (db : DB) (k : String) (hwid : Option String) (now : ℚ) :
    ValidateResult × DB :=
  if hwid.any (isHWIDBanned db) then (.banned, db)
  else match findUserByKey db k with
  | none => (.invalidKey, db)
  | some user => validateUser db user hwid now

/-- The endpoint `GET /api/validate` (part_000:802-858): `if (!key)` guard,
then the keyed checks in source order. -/
def validate (db : DB) : Option String → Option String → ℚ → ValidateResult × DB
  | none, _, _ => (.noKey, db)
  | some k, hwid, now => validateKeyed db k hwid now

/-- The state after the warning increment and audit-log append of
`POST /api/admin/warn/:userId` (part_000:1038-1049): the user record holds
`w` warnings and the log gains one entry. -/
def warnLogged (db : DB) (uid : ℕ) (reason : String) (now : ℚ) (w : ℕ) : DB :=
  let db1 := updateUser db uid (fun u => { u with warnings := w })
  { db1 with warnings := db1.warnings ++
      [{ user_id := uid, reason := reason, timestamp := now }] }

/-- The auto-ban step of `POST /api/admin/warn/:userId` (part_000:1054-1062):
at two warnings a bound device is inserted into the ban set, skipped when
already present. -/
def warnBanStep : Option String → DB → ℕ → Option (ℕ × Bool) × DB
  | some d, db, newWarnings =>
    if 2 ≤ newWarnings then
      if db.banned_hwids.contains d then (some (newWarnings, false), db)
      else (some (newWarnings, true),
            { db with banned_hwids := db.banned_hwids ++ [d] })
    else (some (newWarnings, false), db)
  | none, db, newWarnings => (some (newWarnings, false), db)

/-- The endpoint `POST /api/admin/warn/:userId` (part_000:1031-1070).
Returns `some (newWarnings, autoBanned)` or `none` for an unknown user;
the ban step reads the bound device of the pre-increment user record. -/
def warn (db : DB) (uid : ℕ) (reason : String) (now : ℚ) :
    Option (ℕ × Bool) × DB :=
  match findUser db uid with
  | none => (none, db)
  | some user =>
    warnBanStep user.hwid (warnLogged db uid reason now (user.warnings + 1))
      (user.warnings + 1)

/-- The per-user part of `POST /api/admin/pause/:userId`
(part_000:1308-1332): toggles.  When pausing, stores `max(0, expires −
now)` as the frozen remaining time and leaves `subscription_expires`
untouched; when unpausing, restores `expires = now +
(paused_time_remaining || 0)`. -/
def pauseToggleBody (db : DB) (uid : ℕ) (now : ℚ) (user : User) :
    Option Bool × DB :=
  if ¬ user.paused then
    (some true, updateUser db uid (fun u =>
      { u with paused := true,
               pause_locked := false,
               paused_time_remaining := some (max0 (user.subscription_expires - now)),
               paused_at := some now }))
  else
    (some false, updateUser db uid (fun u =>
      { u with paused := false,
               pause_locked := false,
               subscription_expires := now + (user.paused_time_remaining.getD 0),
               paused_time_remaining := none,
               paused_at := none }))

/-- The endpoint `POST /api/admin/pause/:userId` (part_000:1302-1339).
Returns the new paused state, or `none` for an unknown user. -/
def pauseToggle (db : DB) (uid : ℕ) (now : ℚ) : Option Bool × DB :=
  match findUser db uid with
  | none => (none, db)
  | some user => pauseToggleBody db uid now user

inductive UnpauseResult where
  | notAuthenticated
  | notPaused
  | pauseLocked
  | success
deriving DecidableEq, Repr

/-- The per-user part of `POST /api/unpause` (part_000:462-481),
self-service: allowed only when paused and not locked; restores `expires =
now + (paused_time_remaining || 0)` and clears the pause fields. -/
def selfUnpauseBody (db : DB) (uid : ℕ) (now : ℚ) (user : User) :
    UnpauseResult × DB :=
  if ¬ user.paused then (.notPaused, db)
  else if user.pause_locked then (.pauseLocked, db)
  else
    (.success, updateUser db uid (fun u =>
      { u with paused := false,
               unpause_requested := false,
               subscription_expires := now + (user.paused_time_remaining.getD 0),
               paused_time_remaining := none,
               paused_at := none }))

/-- The endpoint `POST /api/unpause` (part_000:457-486). -/
def selfUnpause (db : DB) (uid : ℕ) (now : ℚ) : UnpauseResult × DB :=
  match findUser db uid with
  | none => (.notAuthenticated, db)
  | some user => selfUnpauseBody db uid now user

/-- The predicate selecting which users `POST /api/admin/lock-all-paused`
(part_000:1346-1351) will lock: with global pause on, every unlocked user
with an active subscription; otherwise every paused, unlocked user. -/
def lockAllTarget (db : DB) (now : ℚ) (u : User) : Bool :=
  if db.global_paused then
    decide (0 < u.subscription_tier) && decide (now < u.subscription_expires)
      && !u.pause_locked
  else
    u.paused && !u.pause_locked

/-- The endpoint `POST /api/admin/lock-all-paused` (part_000:1342-1375),
`MaterializeGlobalPause`.  Each targeted user gets `pause_locked := true`;
one not already paused (global branch) additionally gets `paused := true` —
and nothing else: the source stores no `paused_time_remaining`
(part_000:1361).  Returns `none` when no user is targeted. -/
def lockAllPaused (db : DB) (now : ℚ) : Option ℕ × DB :=
  let targets := db.users.filter (lockAllTarget db now)
  if targets.length = 0 then (none, db)
  else
    (some targets.length,
     { db with users := db.users.map (fun u =>
         if lockAllTarget db now u then
           if db.global_paused ∧ ¬ u.paused then
             { u with paused := true, pause_locked := true }
           else
             { u with pause_locked := true }
         else u) })

/-- The reconciler selection predicate (part_000:2128-2133):
`tier > 0 && expires > 0 && expires < now && expires > now − 5 min`. -/
def reconcilerSelects (now : ℚ) (u : User) : Bool :=
  decide (0 < u.subscription_tier) && decide ((0 : ℚ) < u.subscription_expires)
    && decide (u.subscription_expires < now)
    && decide (now - 300000 < u.subscription_expires)

/-- One reconciler tick (part_000:2124-2144): every selected user has the
external entitlement revoked and `subscription_tier` set to 0; the stored
expiry is left unchanged. -/
def reconcilerTick (db : DB) (now : ℚ) : DB :=
  { db with users := db.users.map (fun u =>
      if reconcilerSelects now u then { u with subscription_tier := 0 } else u) }

inductive RemoveHoursResult where
  | userNotFound
  | invalidHours
  | success
deriving DecidableEq, Repr

/-- The per-user part of `POST /api/admin/remove-hours/:userId`
(part_000:1229-1252): subtracts `hours × 3 600 000` ms from the stored
expiry; when the result lands before `now`, zeroes both the expiry and the
tier instead. -/
def removeHoursBody (db : DB) (uid : ℕ) (hours now : ℚ) (user : User) :
    RemoveHoursResult × DB :=
  if hours ≤ 0 then (.invalidHours, db)
  else if user.subscription_expires - hours * msPerHour < now then
    (.success, updateUser db uid (fun u =>
      { u with subscription_expires := 0, subscription_tier := 0 }))
  else
    (.success, updateUser db uid (fun u =>
      { u with subscription_expires :=
          user.subscription_expires - hours * msPerHour }))

/-- The endpoint `POST /api/admin/remove-hours/:userId` (part_000:1222-1253). -/
def removeHours (db : DB) (uid : ℕ) (hours : ℚ) (now : ℚ) :
    RemoveHoursResult × DB :=
  match findUser db uid with
  | none => (.userNotFound, db)
  | some user => removeHoursBody db uid hours now user

/-- Modelled from the spec: the effective-activity rule of spec section 4.3,
`isActive(user, now) = paused ? frozen_remaining > 0 : expires > now`.
Written from the spec's words (claim C4's premise), to be compared against
what `validate` actually checks. -/
def specIsActive (u : User) (now : ℚ) : Bool :=
  if u.paused then 0 < u.paused_time_remaining.getD 0
  else now < u.subscription_expires

/-- Concrete input for C1: user 1 holds 10 hours (36 000 000 ms from
`now = 0`) on tier 1 (Bronze, $1.00/h) with balance $10. -/
def C1user : User :=
  { id := 1, license_key := "K1", balance := 10,
    subscription_tier := 1, subscription_expires := 36000000 }

def C1db : DB := { users := [C1user] }

/-- User 1 as C1's subscribe leaves them. -/
def C1userAfter : User :=
  { C1user with
    balance := 3
    subscription_tier := 3
    subscription_expires := 122400000/7 }

/-- The database C1's subscribe leaves behind. -/
def C1db' : DB := { users := [C1userAfter] }

/-- Concrete input for C2: Bronze (tier 1) has capacity 2; users 2 and 3
are active and unexpired on tier 1; user 1 requests tier 1. -/
def C2db : DB :=
  { users :=
      [ { id := 1, license_key := "K1", balance := 100 },
        { id := 2, license_key := "K2", subscription_tier := 1,
          subscription_expires := 7200000 },
        { id := 3, license_key := "K3", subscription_tier := 1,
          subscription_expires := 7200000 } ] }

/-- Concrete input for C9: user 1 holds $1, requests 2 hours of tier 1
($1.00/h), so the needed amount is $2. -/
def C9db : DB :=
  { users := [ { id := 1, license_key := "K1", balance := 1 } ] }

/-- Concrete input for C10: user 1 has 1 hour left (expiry 3 600 000 at
`now = 0`); removing 2 hours overshoots into the past. -/
def C10db : DB :=
  { users := [ { id := 1, license_key := "K1", subscription_tier := 1,
                 subscription_expires := 3600000 } ] }

/-- Concrete input for C3's counterexample: user 1's subscription already
lapsed (`expires = 0`), paused and immediately self-unpaused at
`now = 3 600 000`. -/
def C3db : DB :=
  { users := [ { id := 1, license_key := "K1" } ] }

/-- Concrete input for C3's witness: user 1 with 2 hours plus a second
left at `now = 1000`. -/
def C3wuser : User :=
  { id := 1, license_key := "K1", subscription_tier := 1,
    subscription_expires := 7201000 }

def C3wdb : DB := { users := [C3wuser] }

/-- Concrete input for C6: global pause is on; user 1 has an active
subscription (expiry 3 601 000 at `now = 1000`), is not paused and not
locked. -/
def C6user : User :=
  { id := 1, license_key := "K1", subscription_tier := 1,
    subscription_expires := 3601000 }

def C6db : DB := { users := [C6user], global_paused := true }

/-- Concrete trace for C7: user 1 starts fresh with a $10 balance. -/
def C7user : User := { id := 1, license_key := "K1", balance := 10 }

def C7db0 : DB := { users := [C7user] }

/-- The database after user 1 buys 2 hours of tier 1 at `now = 0`. -/
def C7db1 : DB := (subscribe DEFAULT_PLANS 2 C7db0 1 1 2 false 0).2

/-- The same database once an admin turns the global pause on. -/
def C7db2 : DB := { C7db1 with global_paused := true }

/-- Concrete input for C8's witness: at `now = 600000`, user 1 lapsed
inside the window (expiry 400 000), user 2 lapsed 10 minutes ago
(expiry 0). -/
def C8u1 : User :=
  { id := 1, license_key := "K1", subscription_tier := 1,
    subscription_expires := 400000 }

def C8u2 : User :=
  { id := 2, license_key := "K2", subscription_tier := 1,
    subscription_expires := 0 }

def C8db : DB := { users := [C8u1, C8u2] }

/-- Concrete input for C4's counterexample: user 1 is paused with a full
hour frozen (`paused_time_remaining = 3 600 000`), stale stored expiry 0,
no warnings, no bans, bound device matching the presented one. -/
def C4user : User :=
  { id := 1, license_key := "K", hwid := some "A", paused := true,
    paused_time_remaining := some 3600000, subscription_expires := 0 }

def C4db : DB := { users := [C4user] }

/-- Concrete input for C4's witness: user 1 is active (expiry 7 200 000 at
`now = 5`) with no bound device, presenting device "A". -/
def C4wuser : User :=
  { id := 1, license_key := "K", subscription_tier := 1,
    subscription_expires := 7200000 }

def C4wdb : DB := { users := [C4wuser] }

/-- Concrete input for C5's witness: user 1 has device "A" bound, zero
warnings, and "A" is not banned yet. -/
def C5user : User := { id := 1, license_key := "K", hwid := some "A" }

def C5db : DB := { users := [C5user] }

/-! ## Helper lemmas and claim theorems -/

/-- Updating a user record in place commutes with looking it up, as long as
the update keeps the id. -/
theorem find?_map_update (l : List User) (id : ℕ) (f : User → User)
    (hf : ∀ u, (f u).id = u.id) :
    (l.map (fun u => if u.id = id then f u else u)).find? (fun u => u.id == id)
      = (l.find? (fun u => u.id == id)).map f := by
  induction l with
  | nil => rfl
  | cons a t ih =>
    by_cases h : a.id = id
    · simp [List.find?, h, hf]
    · simp only [List.map_cons, List.find?]
      rw [if_neg h]
      have hb : (a.id == id) = false := by simp [h]
      rw [hb]
      exact ih

/-- Lookup after `updateUser` maps the update over the lookup result. -/
theorem findUser_updateUser (db : DB) (id : ℕ) (f : User → User)
    (hf : ∀ u, (f u).id = u.id) :
    findUser (updateUser db id f) id = (findUser db id).map f :=
  find?_map_update db.users id f hf

/-- Reduction: `subscribe` becomes `subscribeBody` once the user is looked up. -/
theorem subscribe_eq_body (plans : ℕ → Option Plan) (minHours : ℚ) (db : DB)
    (uid : ℕ) (tier : ℕ) (hours : ℚ) (isAdminUser : Bool) (now : ℚ)
    (u : User) (hu : findUser db uid = some u) :
    subscribe plans minHours db uid tier hours isAdminUser now =
      subscribeBody plans minHours db uid tier hours isAdminUser now u := by
  unfold subscribe
  rw [hu]

/-- Reduction: `warn` becomes its logged/ban-step composition once the user is found. -/
theorem warn_eq_body (db : DB) (uid : ℕ) (reason : String) (now : ℚ)
    (u : User) (hu : findUser db uid = some u) :
    warn db uid reason now =
      warnBanStep u.hwid (warnLogged db uid reason now (u.warnings + 1))
        (u.warnings + 1) := by
  unfold warn
  rw [hu]

/-- Looking up the warned user in the post-log state. -/
theorem findUser_warnLogged (db : DB) (uid : ℕ) (reason : String) (now : ℚ)
    (w : ℕ) :
    findUser (warnLogged db uid reason now w) uid =
      (findUser db uid).map (fun v => { v with warnings := w }) := by
  have h : findUser (warnLogged db uid reason now w) uid =
      findUser (updateUser db uid (fun v => { v with warnings := w })) uid := rfl
  rw [h]
  exact findUser_updateUser db uid _ (fun v => rfl)

/-- The log step `warnLogged` does not touch the ban set. -/
theorem warnLogged_banned (db : DB) (uid : ℕ) (reason : String) (now : ℚ)
    (w : ℕ) : (warnLogged db uid reason now w).banned_hwids = db.banned_hwids :=
  rfl

/-- Reduction: `pauseToggle` becomes `pauseToggleBody` once the user is found. -/
theorem pauseToggle_eq_body (db : DB) (uid : ℕ) (now : ℚ) (u : User)
    (hu : findUser db uid = some u) :
    pauseToggle db uid now = pauseToggleBody db uid now u := by
  unfold pauseToggle
  rw [hu]

/-- Reduction: `selfUnpause` becomes `selfUnpauseBody` once the user is found. -/
theorem selfUnpause_eq_body (db : DB) (uid : ℕ) (now : ℚ) (u : User)
    (hu : findUser db uid = some u) :
    selfUnpause db uid now = selfUnpauseBody db uid now u := by
  unfold selfUnpause
  rw [hu]

/-- Reduction: `removeHours` becomes `removeHoursBody` once the user is found. -/
theorem removeHours_eq_body (db : DB) (uid : ℕ) (hours now : ℚ) (u : User)
    (hu : findUser db uid = some u) :
    removeHours db uid hours now = removeHoursBody db uid hours now u := by
  unfold removeHours
  rw [hu]

/-- What a `subscribeSuccess` result determines about its components. -/
theorem subscribeSuccess_eq
    (user : User) (uid tier : ℕ) (parsedHours cost ch0 : ℚ) (db : DB) (now : ℚ)
    (nb ex ch th : ℚ) (db' : DB)
    (hs : subscribeSuccess user uid tier parsedHours cost ch0 db now =
      (SubscribeResult.success nb ex ch th, db')) :
    ch = ch0 ∧ th = ch + parsedHours ∧ ex = now + th * msPerHour ∧
    nb = user.balance - cost ∧
    db' = updateUser db uid (fun u =>
      { u with balance := nb, subscription_tier := tier,
               subscription_expires := ex }) := by
  simp only [subscribeSuccess, Prod.mk.injEq, SubscribeResult.success.injEq] at hs
  obtain ⟨⟨hnb, hex, hch, hth⟩, hdb⟩ := hs
  subst hch; subst hnb; subst hdb; subst hth; subst hex
  exact ⟨rfl, rfl, rfl, rfl, rfl⟩

/-- C1: on every successful Subscribe, a user with a currently active
subscription (`expires > now` and `tier > 0`) switching tiers gets
`convertedHours = ((expires − now)/1h × oldPlan.price) / newPlan.price`, a
user with no active subscription gets `convertedHours = 0`, and in both
cases `totalHours = convertedHours + purchasedHours` and the new expiry
(returned and stored) is `now + totalHours` hours. -/
theorem C1_subscribe_fair_conversion
    (plans : ℕ → Option Plan) (minH : ℚ) (db : DB) (uid tier : ℕ)
    (hours : ℚ) (adm : Bool) (now : ℚ) (u : User) (newPlan : Plan)
    (nb ex ch th : ℚ) (db' : DB)
    (hu : findUser db uid = some u)
    (hp : plans tier = some newPlan)
    (hs : subscribe plans minH db uid tier hours adm now =
      (SubscribeResult.success nb ex ch th, db')) :
    ((now < u.subscription_expires ∧ 0 < u.subscription_tier) →
      ∀ oldPlan, plans u.subscription_tier = some oldPlan →
        ch = ((u.subscription_expires - now) / msPerHour * oldPlan.price)
          / newPlan.price) ∧
    (¬ (now < u.subscription_expires ∧ 0 < u.subscription_tier) → ch = 0) ∧
    th = ch + roundTenth hours ∧
    ex = now + th * msPerHour ∧
    (findUser db' uid).map User.subscription_expires = some ex := by
  rw [subscribe_eq_body plans minH db uid tier hours adm now u hu] at hs
  unfold subscribeBody at hs
  split at hs
  · exact absurd hs (fun h => by injection h with h1 h2; injection h1)
  split at hs
  · exact absurd hs (fun h => by injection h with h1 h2; injection h1)
  split at hs
  · exact absurd hs (fun h => by injection h with h1 h2; injection h1)
  split at hs
  · exact absurd hs (fun h => by injection h with h1 h2; injection h1)
  split at hs
  · exact absurd hs (fun h => by injection h with h1 h2; injection h1)
  split at hs
  · exact absurd hs (fun h => by injection h with h1 h2; injection h1)
  next plan hplan =>
  rw [hp] at hplan
  injection hplan with hplan
  subst hplan
  unfold subscribeChecked at hs
  split at hs
  · exact absurd hs (fun h => by injection h with h1 h2; injection h1)
  split at hs
  · exact absurd hs (fun h => by injection h with h1 h2; injection h1)
  split at hs
  · exact absurd hs (fun h => by injection h with h1 h2; injection h1)
  split at hs
  · exact absurd hs (fun h => by injection h with h1 h2; injection h1)
  split at hs
  next hact =>
    split at hs
    · exact absurd hs (fun h => by injection h with h1 h2; injection h1)
    next oldPlan hold =>
    obtain ⟨hch, hth, hex, hnb, hdb⟩ :=
      subscribeSuccess_eq _ _ _ _ _ _ _ _ _ _ _ _ _ hs
    refine ⟨?_, ?_, hth, hex, ?_⟩
    · intro _ op hop
      rw [hold] at hop
      injection hop with hop
      subst hop
      exact hch
    · intro hna; exact absurd hact hna
    · rw [hdb, findUser_updateUser db uid, hu]
      · rfl
      · exact fun v => rfl
  next hact =>
    obtain ⟨hch, hth, hex, hnb, hdb⟩ :=
      subscribeSuccess_eq _ _ _ _ _ _ _ _ _ _ _ _ _ hs
    refine ⟨?_, ?_, hth, hex, ?_⟩
    · intro h; exact absurd h hact
    · intro _; exact hch
    · rw [hdb, findUser_updateUser db uid, hu]
      · rfl
      · exact fun v => rfl

/-- Witness for C1: the concrete instance of the claim — 10 remaining
hours at $1.00/h moving to the $3.50/h tier while purchasing 2 hours
yields `convertedHours = 20/7 ≈ 2.857` and `totalHours = 34/7 ≈ 4.857`. -/
theorem C1_subscribe_fair_conversion_witness :
    (20/7 : ℚ) = ((36000000 - 0) / msPerHour * 1) / (7/2) ∧
    (34/7 : ℚ) = 20/7 + roundTenth 2 ∧
    (122400000/7 : ℚ) = 0 + (34/7) * msPerHour ∧
    ((2857/1000 : ℚ) - 1/1000 < 20/7 ∧ (20/7 : ℚ) < 2857/1000 + 1/1000) ∧
    ((4857/1000 : ℚ) - 1/1000 < 34/7 ∧ (34/7 : ℚ) < 4857/1000 + 1/1000) := by
  have hu : findUser C1db 1 = some C1user := by decide
  have hp : DEFAULT_PLANS 3 =
      some { name := "Gold", tier := 3, price := 7/2, slots := 4 } := rfl
  have hs : subscribe DEFAULT_PLANS 2 C1db 1 3 2 false 0 =
      (SubscribeResult.success 3 (122400000/7) (20/7) (34/7), C1db') := by decide
  obtain ⟨h1, _, h3, h4, _⟩ :=
    C1_subscribe_fair_conversion DEFAULT_PLANS 2 C1db 1 3 2 false 0 C1user
      _ 3 (122400000/7) (20/7) (34/7) _ hu hp hs
  exact ⟨h1 (by decide) _ rfl, h3, h4, by decide, by decide⟩

/-- C2: a Subscribe request to a tier succeeds only when the number of
other users active and unexpired on that tier is below the plan's slot
capacity; when the guards before the slot check pass and the tier is at
capacity, the request fails with `slotsFull` carrying the active count and
the capacity, and the database is unchanged. -/
theorem C2_subscribe_slot_admission
    (plans : ℕ → Option Plan) (minH : ℚ) (db : DB) (uid tier : ℕ)
    (hours : ℚ) (adm : Bool) (now : ℚ) (u : User) (newPlan : Plan)
    (hu : findUser db uid = some u)
    (hp : plans tier = some newPlan) :
    (∀ nb ex ch th db2,
        subscribe plans minH db uid tier hours adm now =
          (SubscribeResult.success nb ex ch th, db2) →
        activeUsersOnTier db tier uid now < maxSlotsOf newPlan) ∧
    (u.hwid.any (isHWIDBanned db) = false → u.warnings < 2 →
     db.sales_closed = false → db.global_paused = false →
     ¬ (roundTenth hours < minH ∨ 168 < roundTenth hours) →
     newPlan.enabled = true → ¬ (newPlan.adminOnly ∧ ¬ adm) →
     maxSlotsOf newPlan ≤ activeUsersOnTier db tier uid now →
     subscribe plans minH db uid tier hours adm now =
       (SubscribeResult.slotsFull (activeUsersOnTier db tier uid now)
         (maxSlotsOf newPlan), db)) := by
  constructor
  · intro nb ex ch th db2 hs
    rw [subscribe_eq_body plans minH db uid tier hours adm now u hu] at hs
    unfold subscribeBody at hs
    split at hs
    · exact absurd hs (fun h => by injection h with h1 h2; injection h1)
    split at hs
    · exact absurd hs (fun h => by injection h with h1 h2; injection h1)
    split at hs
    · exact absurd hs (fun h => by injection h with h1 h2; injection h1)
    split at hs
    · exact absurd hs (fun h => by injection h with h1 h2; injection h1)
    split at hs
    · exact absurd hs (fun h => by injection h with h1 h2; injection h1)
    split at hs
    · exact absurd hs (fun h => by injection h with h1 h2; injection h1)
    next plan hplan =>
    rw [hp] at hplan
    injection hplan with hplan
    subst hplan
    unfold subscribeChecked at hs
    split at hs
    · exact absurd hs (fun h => by injection h with h1 h2; injection h1)
    split at hs
    · exact absurd hs (fun h => by injection h with h1 h2; injection h1)
    split at hs
    · exact absurd hs (fun h => by injection h with h1 h2; injection h1)
    next hslots =>
    omega
  · intro hB hW hS hG hH hE hA hFull
    rw [subscribe_eq_body plans minH db uid tier hours adm now u hu]
    unfold subscribeBody
    rw [if_neg (by simp [hB]), if_neg (by omega), if_neg (by simp [hS]),
      if_neg (by simp [hG]), if_neg hH, hp]
    show subscribeChecked plans db uid tier (roundTenth hours) u newPlan adm now = _
    unfold subscribeChecked
    rw [if_neg (by simp [hE]), if_neg hA, if_pos hFull]

/-- Witness for C2: with capacity 2 and two distinct other users active
and unexpired on tier 1, a third user's Subscribe to tier 1 returns
`slotsFull` with `activeUsersOnTier = 2` and `maxSlots = 2`, leaving the
database unchanged. -/
theorem C2_subscribe_slot_admission_witness :
    activeUsersOnTier C2db 1 1 0 = 2 ∧
    subscribe DEFAULT_PLANS 2 C2db 1 1 2 false 0 =
      (SubscribeResult.slotsFull 2 2, C2db) := by
  have h := (C2_subscribe_slot_admission DEFAULT_PLANS 2 C2db 1 1 2 false 0
      { id := 1, license_key := "K1", balance := 100 }
      { name := "Bronze", tier := 1, price := 1, slots := 2 }
      (by decide) rfl).2
      (by decide) (by decide) (by decide) (by decide) (by decide)
      (by decide) (by decide) (by decide)
  have ha : activeUsersOnTier C2db 1 1 0 = 2 := by decide
  have hm : maxSlotsOf { name := "Bronze", tier := 1, price := 1, slots := 2 } = 2 := by decide
  rw [ha, hm] at h
  exact ⟨ha, h⟩

/-- C9: with the guards before the balance check passing, a Subscribe of
`h` purchased hours (rounded to one decimal) on a plan either fails with
an insufficient-balance error reporting the needed and held amounts while
leaving the database unchanged (when `balance < h × price`), or succeeds
charging exactly `h × price`: the returned and stored balance is the old
balance minus the cost, converted hours costing nothing. -/
theorem C9_subscribe_charge
    (plans : ℕ → Option Plan) (minH : ℚ) (db : DB) (uid tier : ℕ)
    (hours : ℚ) (adm : Bool) (now : ℚ) (u : User) (newPlan : Plan)
    (hu : findUser db uid = some u)
    (hp : plans tier = some newPlan)
    (hB : u.hwid.any (isHWIDBanned db) = false) (hW : u.warnings < 2)
    (hS : db.sales_closed = false) (hG : db.global_paused = false)
    (hH : ¬ (roundTenth hours < minH ∨ 168 < roundTenth hours))
    (hE : newPlan.enabled = true) (hA : ¬ (newPlan.adminOnly ∧ ¬ adm))
    (hSlots : activeUsersOnTier db tier uid now < maxSlotsOf newPlan) :
    (u.balance < roundTenth hours * newPlan.price →
      subscribe plans minH db uid tier hours adm now =
        (SubscribeResult.insufficientBalance (roundTenth hours * newPlan.price)
          u.balance, db)) ∧
    (∀ nb ex ch th db2,
      subscribe plans minH db uid tier hours adm now =
        (SubscribeResult.success nb ex ch th, db2) →
      nb = u.balance - roundTenth hours * newPlan.price ∧
      (findUser db2 uid).map User.balance = some nb) := by
  constructor
  · intro hlow
    rw [subscribe_eq_body plans minH db uid tier hours adm now u hu]
    unfold subscribeBody
    rw [if_neg (by simp [hB]), if_neg (by omega), if_neg (by simp [hS]),
      if_neg (by simp [hG]), if_neg hH, hp]
    show subscribeChecked plans db uid tier (roundTenth hours) u newPlan adm now = _
    unfold subscribeChecked
    rw [if_neg (by simp [hE]), if_neg hA, if_neg (by omega), if_pos hlow]
  · intro nb ex ch th db2 hs
    have hred : subscribeBody plans minH db uid tier hours adm now u =
        subscribeChecked plans db uid tier (roundTenth hours) u newPlan adm now := by
      unfold subscribeBody
      rw [if_neg (by simp [hB]), if_neg (by omega), if_neg (by simp [hS]),
        if_neg (by simp [hG]), if_neg hH, hp]
    rw [subscribe_eq_body plans minH db uid tier hours adm now u hu, hred] at hs
    unfold subscribeChecked at hs
    rw [if_neg (by simp [hE]), if_neg hA, if_neg (by omega)] at hs
    split at hs
    · exact absurd hs (fun h => by injection h with h1 h2; injection h1)
    split at hs
    next hact =>
      split at hs
      · exact absurd hs (fun h => by injection h with h1 h2; injection h1)
      next oldPlan hold =>
      obtain ⟨hch, hth, hex, hnb, hdb⟩ :=
        subscribeSuccess_eq _ _ _ _ _ _ _ _ _ _ _ _ _ hs
      refine ⟨hnb, ?_⟩
      rw [hdb, findUser_updateUser db uid, hu]
      · rfl
      · exact fun v => rfl
    next hact =>
      obtain ⟨hch, hth, hex, hnb, hdb⟩ :=
        subscribeSuccess_eq _ _ _ _ _ _ _ _ _ _ _ _ _ hs
      refine ⟨hnb, ?_⟩
      rw [hdb, findUser_updateUser db uid, hu]
      · rfl
      · exact fun v => rfl

/-- Witness for C9: user 1 holds $1 and requests 2 hours at $1.00/h; the
request fails with `insufficientBalance` reporting needed $2, held $1,
and the database is unchanged. -/
theorem C9_subscribe_charge_witness :
    subscribe DEFAULT_PLANS 2 C9db 1 1 2 false 0 =
      (SubscribeResult.insufficientBalance 2 1, C9db) := by
  have h := (C9_subscribe_charge DEFAULT_PLANS 2 C9db 1 1 2 false 0
      { id := 1, license_key := "K1", balance := 1 }
      { name := "Bronze", tier := 1, price := 1, slots := 2 }
      (by decide) rfl (by decide) (by decide) (by decide) (by decide)
      (by decide) (by decide) (by decide) (by decide)).1 (by decide)
  have hc : roundTenth 2 * (1 : ℚ) = 2 := by decide
  rw [hc] at h
  exact h

/-- C10: admin RemoveTime with `h > 0` on an existing user zeroes both the
expiry and the tier when the reduced expiry would land before `now`, and
otherwise subtracts exactly `h × 3 600 000` ms from the expiry leaving the
tier unchanged; either way it never leaves a positive expiry in the
past. -/
theorem C10_remove_hours (db : DB) (uid : ℕ) (hours now : ℚ) (u : User)
    (hu : findUser db uid = some u) (hpos : 0 < hours) :
    (u.subscription_expires - hours * msPerHour < now →
      (removeHours db uid hours now).1 = RemoveHoursResult.success ∧
      findUser (removeHours db uid hours now).2 uid =
        some { u with subscription_expires := 0, subscription_tier := 0 }) ∧
    (now ≤ u.subscription_expires - hours * msPerHour →
      (removeHours db uid hours now).1 = RemoveHoursResult.success ∧
      findUser (removeHours db uid hours now).2 uid =
        some { u with subscription_expires :=
                 u.subscription_expires - hours * msPerHour }) ∧
    (∀ v, findUser (removeHours db uid hours now).2 uid = some v →
      v.subscription_expires = 0 ∨ now ≤ v.subscription_expires) := by
  have hne : ¬ hours ≤ 0 := not_le.mpr hpos
  by_cases hlt : u.subscription_expires - hours * msPerHour < now
  · have hr : removeHours db uid hours now =
        (RemoveHoursResult.success,
         updateUser db uid (fun v =>
           { v with subscription_expires := 0, subscription_tier := 0 })) := by
      rw [removeHours_eq_body db uid hours now u hu]
      unfold removeHoursBody
      rw [if_neg hne, if_pos hlt]
    refine ⟨fun _ => ⟨by rw [hr], ?_⟩, fun hge => absurd hlt (not_lt.mpr hge), ?_⟩
    · rw [hr]
      rw [findUser_updateUser db uid, hu]
      · rfl
      · exact fun v => rfl
    · intro v hv
      rw [hr] at hv
      rw [findUser_updateUser db uid, hu] at hv
      · injection hv with hv
        subst hv
        exact Or.inl rfl
      · exact fun v => rfl
  · have hr : removeHours db uid hours now =
        (RemoveHoursResult.success,
         updateUser db uid (fun v =>
           { v with subscription_expires :=
               u.subscription_expires - hours * msPerHour })) := by
      rw [removeHours_eq_body db uid hours now u hu]
      unfold removeHoursBody
      rw [if_neg hne, if_neg hlt]
    refine ⟨fun hlt2 => absurd hlt2 hlt, fun _ => ⟨by rw [hr], ?_⟩, ?_⟩
    · rw [hr]
      rw [findUser_updateUser db uid, hu]
      · rfl
      · exact fun v => rfl
    · intro v hv
      rw [hr] at hv
      rw [findUser_updateUser db uid, hu] at hv
      · injection hv with hv
        subst hv
        exact Or.inr (not_lt.mp hlt)
      · exact fun v => rfl

/-- Witness for C10: removing 2 hours from a user with 1 hour left (at
`now = 0`) zeroes both the stored expiry and the tier. -/
theorem C10_remove_hours_witness :
    (removeHours C10db 1 2 0).1 = RemoveHoursResult.success ∧
    (findUser (removeHours C10db 1 2 0).2 1).map User.subscription_expires =
      some 0 ∧
    (findUser (removeHours C10db 1 2 0).2 1).map User.subscription_tier =
      some 0 := by
  have h := (C10_remove_hours C10db 1 2 0
      { id := 1, license_key := "K1", subscription_tier := 1,
        subscription_expires := 3600000 }
      (by decide) (by decide)).1 (by decide)
  refine ⟨h.1, ?_, ?_⟩ <;> rw [h.2] <;> rfl

/-- C3 counterexample: for a non-paused user whose expiry lies in the past
(`expires = 0`), Pause followed by an immediately permitted self-service
Unpause at the same instant `now = 3 600 000` leaves `expires = 3 600 000`
— one full hour above its pre-pause value 0, not within any rounding
tolerance — so the round trip does not restore the pre-pause expiry for
every non-paused user. -/
theorem C3_pause_unpause_counterexample :
    (findUser C3db 1).map User.subscription_expires = some 0 ∧
    (selfUnpause (pauseToggle C3db 1 3600000).2 1 3600000).1 =
      UnpauseResult.success ∧
    (findUser (selfUnpause (pauseToggle C3db 1 3600000).2 1 3600000).2 1).map
      User.subscription_expires = some 3600000 ∧
    (3600000 : ℚ) ≠ 0 := by decide

/-- C3 as amended: Pause stores `max(0, expires − now)` as the frozen
remaining time and leaves the stored expiry untouched; self-service
Unpause is permitted exactly when paused and not locked, and then sets
`expires = now + frozen` and clears the pause fields; hence the immediate
round trip yields `expires = now + max(0, old − now)` — exactly the old
expiry whenever it was at least `now`. -/
theorem C3_pause_then_unpause (db : DB) (uid : ℕ) (now : ℚ) (u : User)
    (hu : findUser db uid = some u) (hnp : u.paused = false) :
    (pauseToggle db uid now).1 = some true ∧
    findUser (pauseToggle db uid now).2 uid =
      some { u with paused := true, pause_locked := false,
                    paused_time_remaining :=
                      some (max0 (u.subscription_expires - now)),
                    paused_at := some now } ∧
    (selfUnpause db uid now).1 = UnpauseResult.notPaused ∧
    (∀ dbx v, findUser dbx uid = some v → v.paused = true →
      v.pause_locked = true →
      (selfUnpause dbx uid now).1 = UnpauseResult.pauseLocked) ∧
    (selfUnpause (pauseToggle db uid now).2 uid now).1 =
      UnpauseResult.success ∧
    (findUser (selfUnpause (pauseToggle db uid now).2 uid now).2 uid).map
      User.subscription_expires =
        some (now + max0 (u.subscription_expires - now)) ∧
    (findUser (selfUnpause (pauseToggle db uid now).2 uid now).2 uid).map
      User.paused = some false ∧
    (findUser (selfUnpause (pauseToggle db uid now).2 uid now).2 uid).map
      User.paused_time_remaining = some none ∧
    (now ≤ u.subscription_expires →
      (findUser (selfUnpause (pauseToggle db uid now).2 uid now).2 uid).map
        User.subscription_expires = some u.subscription_expires) := by
  have hpt : pauseToggle db uid now =
      (some true,
       updateUser db uid (fun v =>
         { v with paused := true, pause_locked := false,
                  paused_time_remaining :=
                    some (max0 (u.subscription_expires - now)),
                  paused_at := some now })) := by
    rw [pauseToggle_eq_body db uid now u hu]
    unfold pauseToggleBody
    rw [if_pos (by simp [hnp])]
  have hfind1 : findUser (pauseToggle db uid now).2 uid =
      some { u with paused := true, pause_locked := false,
                    paused_time_remaining :=
                      some (max0 (u.subscription_expires - now)),
                    paused_at := some now } := by
    rw [hpt]
    rw [findUser_updateUser db uid, hu]
    · rfl
    · exact fun v => rfl
  have hsu : selfUnpause (pauseToggle db uid now).2 uid now =
      (UnpauseResult.success,
       updateUser (pauseToggle db uid now).2 uid (fun v =>
         { v with paused := false, unpause_requested := false,
                  subscription_expires :=
                    now + max0 (u.subscription_expires - now),
                  paused_time_remaining := none,
                  paused_at := none })) := by
    rw [selfUnpause_eq_body _ uid now _ hfind1]
    unfold selfUnpauseBody
    rw [if_neg (by simp), if_neg (by simp)]
    rfl
  have hfind2 : findUser (selfUnpause (pauseToggle db uid now).2 uid now).2 uid =
      some { u with paused := false, pause_locked := false,
                    unpause_requested := false,
                    subscription_expires :=
                      now + max0 (u.subscription_expires - now),
                    paused_time_remaining := none,
                    paused_at := none } := by
    rw [hsu]
    rw [findUser_updateUser (pauseToggle db uid now).2 uid, hfind1]
    · rfl
    · exact fun v => rfl
  refine ⟨by rw [hpt], hfind1, ?_, ?_, by rw [hsu],
    by rw [hfind2]; rfl, by rw [hfind2]; rfl, by rw [hfind2]; rfl, ?_⟩
  · rw [selfUnpause_eq_body db uid now u hu]
    unfold selfUnpauseBody
    rw [if_pos (by simp [hnp])]
  · intro dbx v hv hp1 hp2
    rw [selfUnpause_eq_body dbx uid now v hv]
    unfold selfUnpauseBody
    rw [if_neg (by simp [hp1]), if_pos hp2]
  · intro hle
    rw [hfind2]
    have hm : max0 (u.subscription_expires - now) =
        u.subscription_expires - now := by
      unfold max0
      rw [if_neg (by linarith)]
    show some (now + max0 (u.subscription_expires - now)) =
      some u.subscription_expires
    rw [hm]
    congr 1
    ring

/-- Witness for C3's amended theorem: a user with time left at
`now = 1000` is paused (freezing the remaining 7 200 000 ms, expiry field
untouched) and immediately self-unpaused, restoring exactly the original
expiry. -/
theorem C3_pause_then_unpause_witness :
    (pauseToggle C3wdb 1 1000).1 = some true ∧
    (findUser (selfUnpause (pauseToggle C3wdb 1 1000).2 1 1000).2 1).map
      User.subscription_expires = some 7201000 := by
  have h := C3_pause_then_unpause C3wdb 1 1000 C3wuser (by decide) (by decide)
  exact ⟨h.1, h.2.2.2.2.2.2.2.2 (by decide)⟩

/-- C6, at the failing input: with global pause on, `lock-all-paused`
turns the active, non-paused user into `paused = true, pause_locked =
true` — but stores no `paused_time_remaining` (the update at
part_000:1361 sets only the two flags), so the remaining subscription
time is not frozen: a self-service unpause after the global flag is
cleared restores `now + 0` (expires 2000 at now 2000), while the claim
says the remaining 3 600 000 ms are frozen and survive. -/
theorem C6_materialize_global_pause_bug :
    (lockAllPaused C6db 1000).1 = some 1 ∧
    findUser (lockAllPaused C6db 1000).2 1 =
      some { C6user with paused := true, pause_locked := true } ∧
    (findUser (lockAllPaused C6db 1000).2 1).map User.paused_time_remaining =
      some none ∧
    (findUser (selfUnpause { (lockAllPaused C6db 1000).2 with
        global_paused := false } 1 2000).2 1).map User.subscription_expires =
      some 3601000 ∧
    (findUser (pauseToggle { (lockAllPaused C6db 1000).2 with
        global_paused := false } 1 2000).2 1).map User.subscription_expires =
      some 2000 := by decide

/-- C7, at the failing input: after a successful Subscribe and
`MaterializeGlobalPause` under global pause, user 1 has `paused = true`
while `paused_time_remaining` is still null — the claimed invariant
that frozen-remaining-duration is non-null iff paused is violated in a
reachable state. -/
theorem C7_frozen_iff_paused_violation :
    (subscribe DEFAULT_PLANS 2 C7db0 1 1 2 false 0).1 =
      SubscribeResult.success 8 7200000 0 2 ∧
    (findUser (lockAllPaused C7db2 1000).2 1).map User.paused = some true ∧
    (findUser (lockAllPaused C7db2 1000).2 1).map User.paused_time_remaining =
      some none := by decide

/-- A reconciler tick rewrites the user list pointwise. -/
theorem reconcilerTick_users (db : DB) (now : ℚ) :
    (reconcilerTick db now).users = db.users.map (fun u =>
      if reconcilerSelects now u then { u with subscription_tier := 0 } else u) :=
  rfl

/-- C8: a reconciler tick at `now` selects exactly the users with a
positive tier whose stored expiry lies in the open window
`(now − 5 min, now)` (given `now ≥ 5 min`, the source's `expires > 0`
conjunct is implied); every selected user's tier is set to 0 with the
stored expiry unchanged, unselected users are untouched; a user whose
expiry is 10 minutes old is not selected; and no expiry can be selected
both by this tick and by any tick 5 or more minutes later. -/
theorem C8_reconciler_window (db : DB) (now : ℚ) (h5 : 300000 ≤ now) :
    (∀ u, reconcilerSelects now u = true ↔
      (0 < u.subscription_tier ∧ now - 300000 < u.subscription_expires ∧
       u.subscription_expires < now)) ∧
    (∀ (i : ℕ) (u : User), db.users[i]? = some u →
      reconcilerSelects now u = true →
      (reconcilerTick db now).users[i]? =
        some { u with subscription_tier := 0 }) ∧
    (∀ (i : ℕ) (u : User), db.users[i]? = some u →
      reconcilerSelects now u = false →
      (reconcilerTick db now).users[i]? = some u) ∧
    (∀ u, u.subscription_expires = now - 600000 →
      reconcilerSelects now u = true → False) ∧
    (∀ t2 u, now + 300000 ≤ t2 → reconcilerSelects now u = true →
      reconcilerSelects t2 u = true → False) := by
  refine ⟨?_, ?_, ?_, ?_, ?_⟩
  · intro u
    unfold reconcilerSelects
    simp only [Bool.and_eq_true, decide_eq_true_eq]
    constructor
    · rintro ⟨⟨⟨ht, _⟩, hlt⟩, hgt⟩
      exact ⟨ht, hgt, hlt⟩
    · rintro ⟨ht, hgt, hlt⟩
      exact ⟨⟨⟨ht, by linarith⟩, hlt⟩, hgt⟩
  · intro i u hui hsel
    rw [reconcilerTick_users, List.getElem?_map, hui]
    simp [hsel]
  · intro i u hui hsel
    rw [reconcilerTick_users, List.getElem?_map, hui]
    simp [hsel]
  · intro u he hsel
    unfold reconcilerSelects at hsel
    simp only [Bool.and_eq_true, decide_eq_true_eq] at hsel
    obtain ⟨⟨⟨_, _⟩, _⟩, hgt⟩ := hsel
    rw [he] at hgt
    linarith
  · intro t2 u ht hsel1 hsel2
    unfold reconcilerSelects at hsel1 hsel2
    simp only [Bool.and_eq_true, decide_eq_true_eq] at hsel1 hsel2
    obtain ⟨⟨⟨_, _⟩, hlt1⟩, _⟩ := hsel1
    obtain ⟨⟨⟨_, _⟩, _⟩, hgt2⟩ := hsel2
    linarith

/-- Witness for C8: the tick at `now = 600000` demotes user 1 (expiry
400 000, inside the window) to tier 0 keeping the expiry, and leaves
user 2 (lapsed 10 minutes ago) untouched. -/
theorem C8_reconciler_window_witness :
    (reconcilerTick C8db 600000).users[0]? =
      some { C8u1 with subscription_tier := 0 } ∧
    (reconcilerTick C8db 600000).users[1]? = some C8u2 ∧
    (reconcilerSelects 600000 C8u2 = true → False) := by
  have h := C8_reconciler_window C8db 600000 (by decide)
  exact ⟨h.2.1 0 C8u1 (by decide) (by decide),
    h.2.2.1 1 C8u2 (by decide) (by decide),
    h.2.2.2.1 C8u2 (by decide)⟩

/-- A `validate` call with a presented device in the ban set returns
`banned` before anything else. -/
theorem validate_presented_banned (db : DB) (k : String)
    (hwid : Option String) (now : ℚ)
    (h : hwid.any (isHWIDBanned db) = true) :
    validate db (some k) hwid now = (ValidateResult.banned, db) := by
  show validateKeyed db k hwid now = _
  unfold validateKeyed
  rw [if_pos h]

/-- C4 counterexample: the claim's activity rule `isActive = paused ?
frozen_remaining > 0 : expires > now` is true for this user (paused with
3 600 000 ms frozen), every earlier check passes, and the bound device
matches the presented one — so per the claim the request would be Valid —
yet the source's `/api/validate` tests only `subscription_expires >
Date.now()` (part_000:826) and returns Expired. -/
theorem C4_validate_counterexample :
    specIsActive C4user 1000 = true ∧
    C4user.warnings = 0 ∧
    isHWIDBanned C4db "A" = false ∧
    C4user.hwid = some "A" ∧
    (validate C4db (some "K") (some "A") 1000).1 = ValidateResult.expired := by
  decide

/-- C4 as amended: `Validate(licenseKey, deviceId, now)` applies its
checks in source order with the first match winning — presented device in
BanSet → Banned; unknown key → InvalidKey; warnings ≥ 2 → Banned; bound
device in BanSet → Banned; `expires ≤ now` (the stored expiry alone,
ignoring the paused/frozen state) → Expired; bound device differing from
the presented one → HWIDMismatch; otherwise Valid, binding the presented
device and appending a history entry when no device was bound yet. -/
theorem C4_validate_check_order (db : DB) (k : String)
    (hwid : Option String) (now : ℚ) :
    (hwid.any (isHWIDBanned db) = true →
      validate db (some k) hwid now = (ValidateResult.banned, db)) ∧
    (hwid.any (isHWIDBanned db) = false → findUserByKey db k = none →
      validate db (some k) hwid now = (ValidateResult.invalidKey, db)) ∧
    (∀ u, hwid.any (isHWIDBanned db) = false → findUserByKey db k = some u →
      ((2 ≤ u.warnings →
         validate db (some k) hwid now = (ValidateResult.banned, db)) ∧
       (u.warnings < 2 → u.hwid.any (isHWIDBanned db) = true →
         validate db (some k) hwid now = (ValidateResult.banned, db)) ∧
       (u.warnings < 2 → u.hwid.any (isHWIDBanned db) = false →
         u.subscription_expires ≤ now →
         validate db (some k) hwid now = (ValidateResult.expired, db)) ∧
       (∀ d, u.warnings < 2 → u.hwid.any (isHWIDBanned db) = false →
         now < u.subscription_expires → u.hwid = some d → hwid ≠ some d →
         validate db (some k) hwid now = (ValidateResult.hwidMismatch, db)) ∧
       (∀ d, u.warnings < 2 → u.hwid.any (isHWIDBanned db) = false →
         now < u.subscription_expires → u.hwid = some d → hwid = some d →
         validate db (some k) hwid now =
           (ValidateResult.valid u.subscription_tier, db)) ∧
       (u.warnings < 2 → u.hwid.any (isHWIDBanned db) = false →
         now < u.subscription_expires → u.hwid = none → hwid = none →
         validate db (some k) hwid now =
           (ValidateResult.valid u.subscription_tier, db)) ∧
       (∀ d, u.warnings < 2 → u.hwid.any (isHWIDBanned db) = false →
         now < u.subscription_expires → u.hwid = none → hwid = some d →
         validate db (some k) hwid now =
           (ValidateResult.valid u.subscription_tier,
            updateUser db u.id (fun v =>
              { v with hwid := some d,
                       hwid_history := v.hwid_history ++
                         [{ hwid := d, timestamp := now, action := "set" }],
                       last_active := now }))))) := by
  refine ⟨validate_presented_banned db k hwid now, ?_, ?_⟩
  · intro h1 hk
    show validateKeyed db k hwid now = _
    unfold validateKeyed
    rw [if_neg (by simp [h1]), hk]
  · intro u h1 hk
    have hred : validate db (some k) hwid now = validateUser db u hwid now := by
      show validateKeyed db k hwid now = _
      unfold validateKeyed
      rw [if_neg (by simp [h1]), hk]
    refine ⟨?_, ?_, ?_, ?_, ?_, ?_, ?_⟩
    · intro hw
      rw [hred]
      unfold validateUser
      rw [if_pos hw]
    · intro hw hb
      rw [hred]
      unfold validateUser
      rw [if_neg (by omega), if_pos hb]
    · intro hw hb hexp
      rw [hred]
      unfold validateUser
      rw [if_neg (by omega), if_neg (by simp [hb]), if_pos (not_lt.mpr hexp)]
    · intro d hw hb hact hd hne
      rw [hred]
      unfold validateUser
      rw [if_neg (by omega), if_neg (by simp [hb]),
        if_neg (not_not_intro hact), if_pos (by simp [hd, bne_iff_ne, hne])]
    · intro d hw hb hact hd hme
      rw [hred]
      unfold validateUser
      rw [if_neg (by omega), if_neg (by simp [hb]),
        if_neg (not_not_intro hact), if_neg (by simp [hd, hme]), hd, hme]
    · intro hw hb hact hd hme
      rw [hred]
      unfold validateUser
      rw [if_neg (by omega), if_neg (by simp [hb]),
        if_neg (not_not_intro hact), if_neg (by simp [hd]), hd, hme]
    · intro d hw hb hact hd hme
      rw [hred]
      unfold validateUser
      rw [if_neg (by omega), if_neg (by simp [hb]),
        if_neg (not_not_intro hact), if_neg (by simp [hd]), hd, hme]

/-- Witness for C4's amended theorem: an active, unbound user presenting
device "A" validates as `valid` on their tier and gets "A" bound with a
history entry appended. -/
theorem C4_validate_check_order_witness :
    (validate C4wdb (some "K") (some "A") 5).1 = ValidateResult.valid 1 ∧
    (validate C4wdb (some "K") (some "A") 5).2.users.map User.hwid =
      [some "A"] ∧
    (validate C4wdb (some "K") (some "A") 5).2.users.map User.hwid_history =
      [[{ hwid := "A", timestamp := 5, action := "set" }]] := by
  have h := ((C4_validate_check_order C4wdb "K" (some "A") 5).2.2 C4wuser
      (by decide) (by decide)).2.2.2.2.2.2 "A"
      (by decide) (by decide) (by decide) (by decide) (by decide)
  refine ⟨by rw [h]; rfl, by rw [h]; decide, by rw [h]; decide⟩

/-- C5: for a user with a bound device, warning count 0 and the device not
yet banned, two successive Warn calls leave the count at 2, insert the
device into the ban set exactly once, and any subsequent Validate
presenting that device returns Banned. -/
theorem C5_two_warns_autoban (db : DB) (uid : ℕ) (r1 r2 : String)
    (t1 t2 now : ℚ) (k : String) (u : User) (d : String)
    (hu : findUser db uid = some u)
    (hw : u.warnings = 0)
    (hd : u.hwid = some d)
    (hnb : d ∉ db.banned_hwids) :
    (warn db uid r1 t1).1 = some (1, false) ∧
    (warn (warn db uid r1 t1).2 uid r2 t2).1 = some (2, true) ∧
    (findUser (warn (warn db uid r1 t1).2 uid r2 t2).2 uid).map
      User.warnings = some 2 ∧
    (warn (warn db uid r1 t1).2 uid r2 t2).2.banned_hwids.count d = 1 ∧
    (validate (warn (warn db uid r1 t1).2 uid r2 t2).2 (some k) (some d)
      now).1 = ValidateResult.banned := by
  have hA : warn db uid r1 t1 =
      (some (u.warnings + 1, false),
       warnLogged db uid r1 t1 (u.warnings + 1)) := by
    rw [warn_eq_body db uid r1 t1 u hu, hd]
    simp only [warnBanStep]
    rw [if_neg (by omega)]
  have hu1 : findUser (warn db uid r1 t1).2 uid =
      some { u with warnings := u.warnings + 1 } := by
    rw [hA]
    show findUser (warnLogged db uid r1 t1 (u.warnings + 1)) uid = _
    rw [findUser_warnLogged, hu]
    rfl
  have hcont : (warnLogged (warn db uid r1 t1).2 uid r2 t2
      (u.warnings + 1 + 1)).banned_hwids.contains d = false := by
    rw [warnLogged_banned, hA]
    show (warnLogged db uid r1 t1 (u.warnings + 1)).banned_hwids.contains d
      = false
    rw [warnLogged_banned]
    simpa using hnb
  have hB : warn (warn db uid r1 t1).2 uid r2 t2 =
      (some (u.warnings + 1 + 1, true),
       { warnLogged (warn db uid r1 t1).2 uid r2 t2 (u.warnings + 1 + 1) with
           banned_hwids :=
             (warnLogged (warn db uid r1 t1).2 uid r2 t2
               (u.warnings + 1 + 1)).banned_hwids ++ [d] }) := by
    rw [warn_eq_body _ uid r2 t2 _ hu1]
    rw [show ({ u with warnings := u.warnings + 1 } : User).hwid = u.hwid
      from rfl, hd]
    simp only [warnBanStep]
    rw [if_pos (by omega), if_neg (by rw [hcont]; exact Bool.false_ne_true)]
  have hbanned2 : (warn (warn db uid r1 t1).2 uid r2 t2).2.banned_hwids =
      db.banned_hwids ++ [d] := by
    rw [hB]
    show (warnLogged (warn db uid r1 t1).2 uid r2 t2
        (u.warnings + 1 + 1)).banned_hwids ++ [d] = _
    rw [warnLogged_banned, hA]
    show (warnLogged db uid r1 t1 (u.warnings + 1)).banned_hwids ++ [d] = _
    rw [warnLogged_banned]
  refine ⟨?_, ?_, ?_, ?_, ?_⟩
  · rw [hA, hw]
  · rw [hB, hw]
  · rw [hB]
    show (findUser (warnLogged (warn db uid r1 t1).2 uid r2 t2
        (u.warnings + 1 + 1)) uid).map User.warnings = some 2
    rw [findUser_warnLogged, hu1]
    simp [hw]
  · rw [hbanned2, List.count_append]
    rw [List.count_eq_zero.mpr hnb]
    simp
  · have hban : (some d).any (isHWIDBanned
        (warn (warn db uid r1 t1).2 uid r2 t2).2) = true := by
      show isHWIDBanned (warn (warn db uid r1 t1).2 uid r2 t2).2 d = true
      unfold isHWIDBanned
      rw [hbanned2]
      simp
    rw [validate_presented_banned _ k (some d) now hban]

/-- Witness for C5: warning user 1 twice leaves the count at 2, puts "A"
in the ban set exactly once, and a Validate presenting "A" is Banned. -/
theorem C5_two_warns_autoban_witness :
    (warn (warn C5db 1 "r1" 10).2 1 "r2" 20).1 = some (2, true) ∧
    (warn (warn C5db 1 "r1" 10).2 1 "r2" 20).2.banned_hwids.count "A" = 1 ∧
    (validate (warn (warn C5db 1 "r1" 10).2 1 "r2" 20).2 (some "K")
      (some "A") 30).1 = ValidateResult.banned := by
  have h := C5_two_warns_autoban C5db 1 "r1" "r2" 10 20 30 "K" C5user "A"
      (by decide) (by decide) (by decide) (by decide)
  exact ⟨h.2.1, h.2.2.2.1, h.2.2.2.2⟩

end UltraNotifier
